import Mathlib

/-!
Readiness endpoint `readyz` (coderd/readyz.go).

A shallow embedding of the `readyz` handler.  The handler is effectful: it reads
the clock (through `context.WithTimeout`), calls the two collaborators
`api.Database.Ping` and `api.Entitlements.HasErrors`, and calls the response
writer.  The embedding threads an explicit state through the body of the handler
and records every call in program order, so that statements about *which* calls
happen, in *what order* and *when* can be made next to statements about the
response.  Time passes in two ways: inside `Ping`, by the amount the collaborator
reports, and in each of the handler's other calls, by the amount the field `cost`
of the state gives for that call.

Standard-library behaviour the handler relies on (`context.WithTimeout`,
`http.ResponseWriter`) is embedded from its documented contract in the
definitions `WithDeadline`, `WithTimeout`, `ResponseRecorder.WriteHeader` and
`ResponseRecorder.Write`.
-/

namespace Coderd

/-! ## Time, contexts and errors -/

/-- Instants, in nanoseconds on the clock read by `time.Now()`. -/
abbrev Time := Int

/-- Go `time.Duration`: a count of nanoseconds. -/
abbrev Duration := Int

/-- Go `time.Second`. -/
def Second : Duration := 1000000000

/-- Go `http.StatusOK`. -/
def StatusOK : Nat := 200

/-- Go `http.StatusServiceUnavailable`. -/
def StatusServiceUnavailable : Nat := 503

/-- The deadline carried by a `context.Context` (`none`: the context has no
deadline, as reported by `ctx.Deadline()`). -/
structure Context where
  deadline : Option Time
  deriving DecidableEq

/-- Go `context.WithDeadline(parent, d)`: when the parent's deadline is already
before `d` the child is `WithCancel(parent)` and keeps the parent's deadline;
otherwise the child's deadline is `d`. -/
def WithDeadline (parent : Context) (d : Time) : Context :=
  match parent.deadline with
  | some cur => if cur < d then parent else { deadline := some d }
  | none => { deadline := some d }

/-- Go `context.WithTimeout(parent, timeout)`, which is
`WithDeadline(parent, time.Now().Add(timeout))`; `now` is the clock reading. -/
def WithTimeout (parent : Context) (now : Time) (timeout : Duration) : Context :=
  WithDeadline parent (now + timeout)

/-- A non-nil Go `error` value, as far as a ping can return one. -/
inductive GoError where
  | DeadlineExceeded
  | Canceled
  | other (msg : String)
  deriving DecidableEq

/-! ## The response writer -/

/-- State of an `http.ResponseWriter`: whether the status line has been sent,
the status code, and the body bytes written so far. -/
structure ResponseRecorder where
  wroteHeader : Bool
  Code : Nat
  Body : String
  deriving DecidableEq

/-- A response writer on which nothing has been called yet. -/
def NewRecorder : ResponseRecorder :=
  { wroteHeader := false, Code := StatusOK, Body := "" }

/-- The method `WriteHeader(statusCode)`: sends the status line; a second call is
superfluous and leaves the status unchanged. -/
def ResponseRecorder.WriteHeader (rw : ResponseRecorder) (statusCode : Nat) :
    ResponseRecorder :=
  if rw.wroteHeader then rw else { rw with wroteHeader := true, Code := statusCode }

/-- The method `Write(b)`: if `WriteHeader` has not yet been called, `Write` calls
`WriteHeader(http.StatusOK)` before writing the data. -/
def ResponseRecorder.Write (rw : ResponseRecorder) (b : String) : ResponseRecorder :=
  let rw1 := if rw.wroteHeader then rw else rw.WriteHeader StatusOK
  { rw1 with Body := rw1.Body ++ b }

/-- The `(status, body)` pair received by the client; `none` while nothing has
been sent. -/
def ResponseRecorder.response (rw : ResponseRecorder) : Option (Nat × String) :=
  if rw.wroteHeader then some (rw.Code, rw.Body) else none

/-! ## Collaborators -/

/-- What one call of `Database.Ping(ctx)` does when it returns: the returned
`time.Duration`, the returned `error` (`none` is `nil`), the wall-clock time the
call took, and the collaborator state it leaves behind. -/
structure PingReturn (σ : Type) where
  latency : Duration
  err : Option GoError
  elapsed : Nat
  state : σ

/-- The `api.Database` collaborator.  `Ping ctx now s` is the behaviour of a call
made at instant `now` in collaborator state `s`; `none` is a call that never
returns. -/
structure Database (σ : Type) where
  Ping : Context → Time → σ → Option (PingReturn σ)

/-- The `api.Entitlements` collaborator: `HasErrors s` is the returned boolean
and the collaborator state after the call. -/
structure Entitlements (σ : Type) where
  HasErrors : σ → Bool × σ

/-- The receiver `api *API`, restricted to the two fields `readyz` uses. -/
structure API (σ : Type) where
  Database : Database σ
  Entitlements : Entitlements σ

/-- The request `r *http.Request`, restricted to `r.Context()`. -/
structure Request where
  Context : Context

/-! ## Execution state and the call log -/

/-- The calls `readyz` makes, in the order of the log. -/
inductive Call where
  | WithTimeout (parent : Context) (timeout : Duration)
  | Ping (ctx : Context)
  | HasErrors
  | WriteHeader (statusCode : Nat)
  | Write (b : String)
  | cancel
  deriving DecidableEq

/-- Execution state: the clock, the collaborator state, the response writer `w`,
the log of calls made so far, each with the instant it was made at, and the time
each of the handler's own calls (every call but `Ping`, which reports its own
duration) takes on this machine. -/
structure State (σ : Type) where
  now : Time
  collab : σ
  w : ResponseRecorder
  log : List (Time × Call)
  cost : Call → Nat

/-- State at entry of a handler on a machine with call costs `cost`: a fresh
response writer and an empty log. -/
def State.startWith {σ : Type} (cost : Call → Nat) (now : Time) (s : σ) : State σ :=
  { now := now, collab := s, w := NewRecorder, log := [], cost := cost }

/-- State at entry of a handler whose own calls take no time: a fresh response
writer and an empty log. -/
@[reducible] def State.start {σ : Type} (now : Time) (s : σ) : State σ :=
  State.startWith (fun _ => 0) now s

/-- Append a call to the log, stamped with the current instant. -/
def State.record {σ : Type} (st : State σ) (c : Call) : State σ :=
  { st with log := st.log ++ [(st.now, c)] }

/-- Make one of the handler's own calls: log it and let its time pass. -/
def State.call {σ : Type} (st : State σ) (c : Call) : State σ :=
  { st.record c with now := st.now + (st.cost c : Int) }

/-- The statement `w.WriteHeader(statusCode)`. -/
def State.WriteHeader {σ : Type} (st : State σ) (statusCode : Nat) : State σ :=
  { st.call (Call.WriteHeader statusCode) with w := st.w.WriteHeader statusCode }

/-- The statement `_, _ = w.Write(b)`. -/
def State.Write {σ : Type} (st : State σ) (b : String) : State σ :=
  { st.call (Call.Write b) with w := st.w.Write b }

/-- Outcome of running a handler: it returned, or it is still blocked inside a
call that never returns (the state is the one at that call). -/
inductive Run (σ : Type) where
  | returned (st : State σ)
  | blocked (st : State σ)

/-- The state a run ended in (or is blocked in). -/
def Run.state {σ : Type} : Run σ → State σ
  | Run.returned st => st
  | Run.blocked st => st

/-- Whether the handler returned. -/
def Run.isReturned {σ : Type} : Run σ → Bool
  | Run.returned _ => true
  | Run.blocked _ => false

/-- The response the client has received. -/
def Run.response {σ : Type} (run : Run σ) : Option (Nat × String) :=
  run.state.w.response

/-- The calls of a run, in program order. -/
def Run.calls {σ : Type} (run : Run σ) : List Call :=
  run.state.log.map Prod.snd

/-- The calls made on the response writer, in program order. -/
def Run.writerCalls {σ : Type} (run : Run σ) : List Call :=
  run.calls.filter fun c =>
    match c with
    | Call.WriteHeader _ => true
    | Call.Write _ => true
    | _ => false

/-- The contexts of the `Ping` calls in a list of calls, one per call. -/
def pingContextsOf (calls : List Call) : List Context :=
  calls.filterMap fun c =>
    match c with
    | Call.Ping ctx => some ctx
    | _ => none

/-- The contexts handed to `Database.Ping` according to the log, one per call. -/
def Run.pingContexts {σ : Type} (run : Run σ) : List Context :=
  pingContextsOf run.calls

/-- The response writer obtained by making the writer calls of `calls`, in order,
on the writer `rw`. -/
def replay (calls : List Call) (rw : ResponseRecorder) : ResponseRecorder :=
  calls.foldl
    (fun acc c =>
      match c with
      | Call.WriteHeader statusCode => acc.WriteHeader statusCode
      | Call.Write b => acc.Write b
      | _ => acc)
    rw

/-- Number of calls of `Database.Ping`. -/
def Run.pingCount {σ : Type} (run : Run σ) : Nat :=
  run.pingContexts.length

/-- Number of calls of `Entitlements.HasErrors`. -/
def Run.hasErrorsCount {σ : Type} (run : Run σ) : Nat :=
  run.calls.count Call.HasErrors

/-- The handler `func (api *API) readyz(w http.ResponseWriter, r *http.Request)`.
The writer `w` is the field `w` of the state. -/
def readyz {σ : Type} (api : API σ) (r : Request) (st : State σ) : Run σ :=
  -- ctx, cancel := context.WithTimeout(r.Context(), 5*time.Second)
  let ctx := WithTimeout r.Context st.now (5 * Second)
  let st := st.call (Call.WithTimeout r.Context (5 * Second))
  -- if _, err := api.Database.Ping(ctx); err != nil
  let st := st.record (Call.Ping ctx)
  match api.Database.Ping ctx st.now st.collab with
  | none => Run.blocked st
  | some ret =>
    let st := { st with now := st.now + (ret.elapsed : Int), collab := ret.state }
    if ret.err.isSome then
      let st := st.WriteHeader StatusServiceUnavailable
      let st := st.Write "database ping failed"
      -- return, running the deferred cancel()
      Run.returned (st.call Call.cancel)
    else
      -- if api.Entitlements.HasErrors()
      let st := st.call Call.HasErrors
      let res := api.Entitlements.HasErrors st.collab
      let st := { st with collab := res.2 }
      if res.1 then
        let st := st.WriteHeader StatusServiceUnavailable
        let st := st.Write "entitlement error"
        Run.returned (st.call Call.cancel)
      else
        let st := st.Write "OK"
        Run.returned (st.call Call.cancel)

/-- The instant at which `readyz`, started in `st`, calls `Database.Ping`: the
start instant plus the time `context.WithTimeout` takes. -/
def pingInstant {σ : Type} (r : Request) (st : State σ) : Time :=
  st.now + (st.cost (Call.WithTimeout r.Context (5 * Second)) : Int)

/-- The call of `Database.Ping` that `readyz` makes when started in `st`. -/
def pingCall {σ : Type} (api : API σ) (r : Request) (st : State σ) :
    Option (PingReturn σ) :=
  api.Database.Ping (WithTimeout r.Context st.now (5 * Second)) (pingInstant r st) st.collab

/-- The context `readyz` derives when started at instant `now`. -/
def derivedContext (r : Request) (now : Time) : Context :=
  WithTimeout r.Context now (5 * Second)

/-- The instant at which the `Ping` call of `readyz`, started in `st`, returns
`ret`. -/
def pingReturnInstant {σ : Type} (r : Request) (st : State σ) (ret : PingReturn σ) : Time :=
  pingInstant r st + (ret.elapsed : Int)

/-- The log of `readyz`, started in `st`, up to and including the call of `Ping`. -/
def logToPing {σ : Type} (r : Request) (st : State σ) : List (Time × Call) :=
  [(st.now, Call.WithTimeout r.Context (5 * Second)),
   (pingInstant r st, Call.Ping (derivedContext r st.now))]

/-- A collaborator pair is read-only when no call of `Ping` or `HasErrors` changes
the collaborator state. -/
def ReadOnly {σ : Type} (api : API σ) : Prop :=
  (∀ ctx now s ret, api.Database.Ping ctx now s = some ret → ret.state = s) ∧
  ∀ s, (api.Entitlements.HasErrors s).2 = s

/-- The collaborators `api`, instrumented: the collaborator state carries, next
to the state of `api`, the list of calls the collaborators have received and
returned from, in order. -/
def instrument {σ : Type} (api : API σ) : API (σ × List Call) :=
  { Database :=
      { Ping := fun ctx now s =>
          match api.Database.Ping ctx now s.1 with
          | none => none
          | some ret =>
            some { latency := ret.latency, err := ret.err, elapsed := ret.elapsed,
                   state := (ret.state, s.2 ++ [Call.Ping ctx]) } }
    Entitlements :=
      { HasErrors := fun s =>
          ((api.Entitlements.HasErrors s.1).1,
            ((api.Entitlements.HasErrors s.1).2, s.2 ++ [Call.HasErrors])) } }

/-- The calls the instrumented collaborators have received in a run. -/
def Run.received {σ : Type} (run : Run (σ × List Call)) : List Call :=
  run.state.collab.2

/-! ## Concrete collaborators used as test inputs -/

/-- A ping that returns at once with the given latency and error. -/
def pingNow (latency : Duration) (err : Option GoError) : Database Unit :=
  { Ping := fun _ _ s => some { latency := latency, err := err, elapsed := 0, state := s } }

/-- An API whose collaborator state is the number of entitlement errors in
effect: the ping succeeds at once, `HasErrors` reports whether the number is
positive, and neither changes it. -/
def apiErrorCount : API Nat :=
  { Database :=
      { Ping := fun _ _ s => some { latency := 0, err := none, elapsed := 0, state := s } }
    Entitlements := { HasErrors := fun s => (decide (0 < s), s) } }

/-- An entitlement set whose `HasErrors` returns `b` and changes nothing. -/
def entitlementsConst (b : Bool) : Entitlements Unit :=
  { HasErrors := fun s => (b, s) }

/-- An API value built from a database and a constant entitlement answer. -/
def apiOf (db : Database Unit) (b : Bool) : API Unit :=
  { Database := db, Entitlements := entitlementsConst b }

/-- A request whose context has no deadline. -/
def reqNoDeadline : Request := { Context := { deadline := none } }

/-- A request whose context has deadline `d`. -/
def reqDeadline (d : Time) : Request := { Context := { deadline := some d } }


/-! ## The four paths through the handler -/

/-- Path 0: the ping never returns, and the handler stays blocked in the call. -/
theorem readyz_blocked {σ : Type} (api : API σ) (r : Request) (cost : Call → Nat)
    (now : Time) (s : σ) (h : pingCall api r (State.startWith cost now s) = none) :
    readyz api r (State.startWith cost now s) =
      Run.blocked
        { now := pingInstant r (State.startWith cost now s), collab := s, w := NewRecorder,
          log := logToPing r (State.startWith cost now s), cost := cost } := by
  simp only [pingCall, pingInstant, State.startWith] at h
  simp [readyz, State.startWith, State.record, State.call, h, logToPing, derivedContext,
    pingInstant]

/-- Path 1: the ping returns an error. -/
theorem readyz_pingError {σ : Type} (api : API σ) (r : Request) (cost : Call → Nat)
    (now : Time) (s : σ) (ret : PingReturn σ)
    (h : pingCall api r (State.startWith cost now s) = some ret)
    (herr : ret.err.isSome = true) :
    readyz api r (State.startWith cost now s) =
      Run.returned
        { now := pingReturnInstant r (State.startWith cost now s) ret +
            (cost (Call.WriteHeader StatusServiceUnavailable) : Int) +
            (cost (Call.Write "database ping failed") : Int) + (cost Call.cancel : Int),
          collab := ret.state,
          w := (NewRecorder.WriteHeader StatusServiceUnavailable).Write "database ping failed",
          log := logToPing r (State.startWith cost now s) ++
            [(pingReturnInstant r (State.startWith cost now s) ret,
                Call.WriteHeader StatusServiceUnavailable),
             (pingReturnInstant r (State.startWith cost now s) ret +
                (cost (Call.WriteHeader StatusServiceUnavailable) : Int),
                Call.Write "database ping failed"),
             (pingReturnInstant r (State.startWith cost now s) ret +
                (cost (Call.WriteHeader StatusServiceUnavailable) : Int) +
                (cost (Call.Write "database ping failed") : Int), Call.cancel)],
          cost := cost } := by
  simp only [pingCall, pingInstant, State.startWith] at h
  simp [readyz, State.startWith, State.record, State.call, State.WriteHeader, State.Write, h,
    herr, logToPing, derivedContext, pingInstant, pingReturnInstant]

/-- Path 2: the ping succeeds and `HasErrors` returns true. -/
theorem readyz_entitlementError {σ : Type} (api : API σ) (r : Request) (cost : Call → Nat)
    (now : Time) (s : σ) (ret : PingReturn σ)
    (h : pingCall api r (State.startWith cost now s) = some ret)
    (herr : ret.err.isSome = false)
    (hent : (api.Entitlements.HasErrors ret.state).1 = true) :
    readyz api r (State.startWith cost now s) =
      Run.returned
        { now := pingReturnInstant r (State.startWith cost now s) ret +
            (cost Call.HasErrors : Int) +
            (cost (Call.WriteHeader StatusServiceUnavailable) : Int) +
            (cost (Call.Write "entitlement error") : Int) + (cost Call.cancel : Int),
          collab := (api.Entitlements.HasErrors ret.state).2,
          w := (NewRecorder.WriteHeader StatusServiceUnavailable).Write "entitlement error",
          log := logToPing r (State.startWith cost now s) ++
            [(pingReturnInstant r (State.startWith cost now s) ret, Call.HasErrors),
             (pingReturnInstant r (State.startWith cost now s) ret +
                (cost Call.HasErrors : Int), Call.WriteHeader StatusServiceUnavailable),
             (pingReturnInstant r (State.startWith cost now s) ret +
                (cost Call.HasErrors : Int) +
                (cost (Call.WriteHeader StatusServiceUnavailable) : Int),
                Call.Write "entitlement error"),
             (pingReturnInstant r (State.startWith cost now s) ret +
                (cost Call.HasErrors : Int) +
                (cost (Call.WriteHeader StatusServiceUnavailable) : Int) +
                (cost (Call.Write "entitlement error") : Int), Call.cancel)],
          cost := cost } := by
  simp only [pingCall, pingInstant, State.startWith] at h
  simp [readyz, State.startWith, State.record, State.call, State.WriteHeader, State.Write, h,
    herr, hent, logToPing, derivedContext, pingInstant, pingReturnInstant]

/-- Path 3: the ping succeeds and `HasErrors` returns false. -/
theorem readyz_ok {σ : Type} (api : API σ) (r : Request) (cost : Call → Nat)
    (now : Time) (s : σ) (ret : PingReturn σ)
    (h : pingCall api r (State.startWith cost now s) = some ret)
    (herr : ret.err.isSome = false)
    (hent : (api.Entitlements.HasErrors ret.state).1 = false) :
    readyz api r (State.startWith cost now s) =
      Run.returned
        { now := pingReturnInstant r (State.startWith cost now s) ret +
            (cost Call.HasErrors : Int) + (cost (Call.Write "OK") : Int) +
            (cost Call.cancel : Int),
          collab := (api.Entitlements.HasErrors ret.state).2,
          w := NewRecorder.Write "OK",
          log := logToPing r (State.startWith cost now s) ++
            [(pingReturnInstant r (State.startWith cost now s) ret, Call.HasErrors),
             (pingReturnInstant r (State.startWith cost now s) ret +
                (cost Call.HasErrors : Int), Call.Write "OK"),
             (pingReturnInstant r (State.startWith cost now s) ret +
                (cost Call.HasErrors : Int) + (cost (Call.Write "OK") : Int), Call.cancel)],
          cost := cost } := by
  simp only [pingCall, pingInstant, State.startWith] at h
  simp [readyz, State.startWith, State.record, State.call, State.WriteHeader, State.Write, h,
    herr, hent, logToPing, derivedContext, pingInstant, pingReturnInstant]

theorem response_pingError :
    ((NewRecorder.WriteHeader StatusServiceUnavailable).Write "database ping failed").response
      = some (503, "database ping failed") := by decide

theorem response_entitlementError :
    ((NewRecorder.WriteHeader StatusServiceUnavailable).Write "entitlement error").response
      = some (503, "entitlement error") := by decide

theorem response_ok : (NewRecorder.Write "OK").response = some (200, "OK") := by decide

theorem response_new : NewRecorder.response = none := by decide

theorem isSome_true_of_ne_none {α : Type} {o : Option α} (h : o ≠ none) :
    o.isSome = true := by
  cases o with
  | none => exact absurd rfl h
  | some _ => rfl

theorem isSome_false_of_eq_none {α : Type} {o : Option α} (h : o = none) :
    o.isSome = false := by
  rw [h]; rfl

theorem eq_none_of_isSome_false {α : Type} {o : Option α} (h : o.isSome = false) :
    o = none := by
  cases o with
  | none => rfl
  | some _ => simp at h

/-- The deadline of the context `readyz` derives. -/
theorem derivedContext_deadline (r : Request) (now : Time) :
    (derivedContext r now).deadline =
      some (match r.Context.deadline with
        | some d => min d (now + 5000000000)
        | none => now + 5000000000) := by
  unfold derivedContext WithTimeout WithDeadline Second
  cases hd : r.Context.deadline with
  | none => simp
  | some d =>
    have h5 : now + 5 * 1000000000 = now + 5000000000 := by norm_num
    rw [h5]
    by_cases hlt : d < now + 5000000000
    · simp only [hlt, if_true, hd]
      rw [min_eq_left (le_of_lt hlt)]
    · simp only [hlt, if_false]
      rw [min_eq_right (not_lt.mp hlt)]

/-- The outcome of the `Ping` call and of `HasErrors` selects one of four paths. -/
theorem ping_cases {σ : Type} (api : API σ) (r : Request) (st : State σ) :
    pingCall api r st = none ∨
    (∃ ret, pingCall api r st = some ret ∧ ret.err.isSome = true) ∨
    (∃ ret, pingCall api r st = some ret ∧ ret.err.isSome = false ∧
      (api.Entitlements.HasErrors ret.state).1 = true) ∨
    (∃ ret, pingCall api r st = some ret ∧ ret.err.isSome = false ∧
      (api.Entitlements.HasErrors ret.state).1 = false) := by
  cases h : pingCall api r st with
  | none => exact Or.inl rfl
  | some ret =>
    cases herr : ret.err.isSome with
    | true => exact Or.inr (Or.inl ⟨ret, rfl, herr⟩)
    | false =>
      cases hent : (api.Entitlements.HasErrors ret.state).1 with
      | true => exact Or.inr (Or.inr (Or.inl ⟨ret, rfl, herr, hent⟩))
      | false => exact Or.inr (Or.inr (Or.inr ⟨ret, rfl, herr, hent⟩))

/-- Two evaluations that see the same ping outcome (error or not) and the same
`HasErrors` boolean send the same response. -/
theorem response_eq_of_same_observations {σ τ : Type} (api : API σ) (api2 : API τ)
    (r r2 : Request) (now now2 : Time) (s : σ) (s2 : τ)
    (ret : PingReturn σ) (ret2 : PingReturn τ)
    (h : pingCall api r (State.start now s) = some ret)
    (h2 : pingCall api2 r2 (State.start now2 s2) = some ret2)
    (herr : ret.err.isSome = ret2.err.isSome)
    (hent : (api.Entitlements.HasErrors ret.state).1 =
      (api2.Entitlements.HasErrors ret2.state).1) :
    (readyz api r (State.start now s)).response =
      (readyz api2 r2 (State.start now2 s2)).response := by
  cases he : ret.err.isSome with
  | true =>
    rw [readyz_pingError api r (fun _ => 0) now s ret h he,
      readyz_pingError api2 r2 (fun _ => 0) now2 s2 ret2 h2 (herr ▸ he)]
    rfl
  | false =>
    cases hb : (api.Entitlements.HasErrors ret.state).1 with
    | true =>
      rw [readyz_entitlementError api r (fun _ => 0) now s ret h he hb,
        readyz_entitlementError api2 r2 (fun _ => 0) now2 s2 ret2 h2 (herr ▸ he) (hent ▸ hb)]
      rfl
    | false =>
      rw [readyz_ok api r (fun _ => 0) now s ret h he hb,
        readyz_ok api2 r2 (fun _ => 0) now2 s2 ret2 h2 (herr ▸ he) (hent ▸ hb)]
      rfl

/-- The collaborator state `readyz` leaves behind is the one its single `Ping`
call and, after a successful ping, its single `HasErrors` call produce. -/
theorem collab_readyz {σ : Type} (api : API σ) (r : Request) (now : Time) (s : σ)
    (ret : PingReturn σ) (h : pingCall api r (State.start now s) = some ret) :
    (readyz api r (State.start now s)).state.collab =
      if ret.err.isSome then ret.state else (api.Entitlements.HasErrors ret.state).2 := by
  cases he : ret.err.isSome with
  | true =>
    rw [readyz_pingError api r (fun _ => 0) now s ret h he]
    simp [Run.state]
  | false =>
    cases hb : (api.Entitlements.HasErrors ret.state).1 with
    | true =>
      rw [readyz_entitlementError api r (fun _ => 0) now s ret h he hb]
      simp [Run.state]
    | false =>
      rw [readyz_ok api r (fun _ => 0) now s ret h he hb]
      simp [Run.state]

/-- The `Ping` call `readyz` makes on instrumented collaborators. -/
theorem pingCall_instrument {σ : Type} (api : API σ) (r : Request) (now : Time) (s : σ)
    (ret : PingReturn σ) (h : pingCall api r (State.start now s) = some ret) :
    pingCall (instrument api) r (State.start now (s, [])) =
      some { latency := ret.latency, err := ret.err, elapsed := ret.elapsed,
             state := (ret.state, [Call.Ping (derivedContext r now)]) } := by
  simp only [pingCall, pingInstant, State.startWith, Nat.cast_zero, add_zero] at h
  simp [pingCall, pingInstant, State.startWith, instrument, h, derivedContext]

/-- The calls instrumented collaborators receive from `readyz`. -/
theorem received_readyz {σ : Type} (api : API σ) (r : Request) (now : Time) (s : σ)
    (ret : PingReturn σ) (h : pingCall api r (State.start now s) = some ret) :
    (readyz (instrument api) r (State.start now (s, []))).received =
      if ret.err.isSome then [Call.Ping (derivedContext r now)]
      else [Call.Ping (derivedContext r now), Call.HasErrors] := by
  rw [Run.received, collab_readyz (instrument api) r now (s, []) _
    (pingCall_instrument api r now s ret h)]
  cases he : ret.err.isSome with
  | true => simp
  | false => simp [instrument]

/-- The calls `readyz` logs, by path. -/
theorem calls_readyz {σ : Type} (api : API σ) (r : Request) (now : Time) (s : σ) :
    (pingCall api r (State.start now s) = none ∧
      (readyz api r (State.start now s)).calls =
        [Call.WithTimeout r.Context (5 * Second), Call.Ping (derivedContext r now)]) ∨
    (∃ ret, pingCall api r (State.start now s) = some ret ∧ ret.err ≠ none ∧
      (readyz api r (State.start now s)).calls =
        [Call.WithTimeout r.Context (5 * Second), Call.Ping (derivedContext r now),
         Call.WriteHeader StatusServiceUnavailable, Call.Write "database ping failed",
         Call.cancel]) ∨
    (∃ ret, pingCall api r (State.start now s) = some ret ∧ ret.err = none ∧
      (api.Entitlements.HasErrors ret.state).1 = true ∧
      (readyz api r (State.start now s)).calls =
        [Call.WithTimeout r.Context (5 * Second), Call.Ping (derivedContext r now),
         Call.HasErrors, Call.WriteHeader StatusServiceUnavailable,
         Call.Write "entitlement error", Call.cancel]) ∨
    (∃ ret, pingCall api r (State.start now s) = some ret ∧ ret.err = none ∧
      (api.Entitlements.HasErrors ret.state).1 = false ∧
      (readyz api r (State.start now s)).calls =
        [Call.WithTimeout r.Context (5 * Second), Call.Ping (derivedContext r now),
         Call.HasErrors, Call.Write "OK", Call.cancel]) := by
  rcases ping_cases api r (State.start now s) with h | ⟨ret, h, he⟩ | ⟨ret, h, he, hb⟩ |
    ⟨ret, h, he, hb⟩
  · refine Or.inl ⟨h, ?_⟩
    rw [readyz_blocked api r (fun _ => 0) now s h]
    simp [Run.calls, Run.state, logToPing, State.startWith]
  · refine Or.inr (Or.inl ⟨ret, h, ?_, ?_⟩)
    · intro hn; rw [hn] at he; simp at he
    · rw [readyz_pingError api r (fun _ => 0) now s ret h he]
      simp [Run.calls, Run.state, logToPing, State.startWith]
  · refine Or.inr (Or.inr (Or.inl ⟨ret, h, eq_none_of_isSome_false he, hb, ?_⟩))
    rw [readyz_entitlementError api r (fun _ => 0) now s ret h he hb]
    simp [Run.calls, Run.state, logToPing, State.startWith]
  · refine Or.inr (Or.inr (Or.inr ⟨ret, h, eq_none_of_isSome_false he, hb, ?_⟩))
    rw [readyz_ok api r (fun _ => 0) now s ret h he hb]
    simp [Run.calls, Run.state, logToPing, State.startWith]

/-- C1: the response of `readyz` is status 200 with body "OK" if and only if the
storage ping returned without error and `Entitlements.HasErrors()` returned
false. -/
theorem C1_ready_iff {σ : Type} (api : API σ) (r : Request) (now : Time) (s : σ) :
    (readyz api r (State.start now s)).response = some (200, "OK") ↔
      ∃ ret, pingCall api r (State.start now s) = some ret ∧ ret.err = none ∧
        (api.Entitlements.HasErrors ret.state).1 = false := by
  cases h : pingCall api r (State.start now s) with
  | none =>
    rw [readyz_blocked api r (fun _ => 0) now s h]
    simp [Run.response, Run.state, response_new]
  | some ret =>
    cases herr : ret.err.isSome with
    | true =>
      rw [readyz_pingError api r (fun _ => 0) now s ret h herr]
      have hne : ret.err ≠ none := by
        intro hn; rw [hn] at herr; simp at herr
      simp only [Run.response, Run.state, response_pingError]
      constructor
      · intro hc; exact absurd hc (by decide)
      · rintro ⟨ret2, h2, he, -⟩
        cases h2; exact absurd he hne
    | false =>
      have hnone : ret.err = none := by
        cases hq : ret.err with
        | none => rfl
        | some e => rw [hq] at herr; simp at herr
      cases hent : (api.Entitlements.HasErrors ret.state).1 with
      | true =>
        rw [readyz_entitlementError api r (fun _ => 0) now s ret h herr hent]
        simp only [Run.response, Run.state, response_entitlementError]
        constructor
        · intro hc; exact absurd hc (by decide)
        · rintro ⟨ret2, h2, -, hb⟩
          cases h2; rw [hent] at hb; exact absurd hb (by decide)
      | false =>
        rw [readyz_ok api r (fun _ => 0) now s ret h herr hent]
        simp only [Run.response, Run.state, response_ok]
        constructor
        · intro _; exact ⟨ret, rfl, hnone, hent⟩
        · intro _; trivial


/-- C2: when the storage ping returns an error, `readyz` returns, the response is
status 503 with body "database ping failed" whatever the entitlement state is, and
`Entitlements.HasErrors()` is not called during the evaluation. -/
theorem C2_ping_failure_short_circuits {σ : Type} (api : API σ) (r : Request)
    (now : Time) (s : σ) (ret : PingReturn σ)
    (h : pingCall api r (State.start now s) = some ret) (herr : ret.err ≠ none) :
    (readyz api r (State.start now s)).isReturned = true ∧
      (readyz api r (State.start now s)).response = some (503, "database ping failed") ∧
      (readyz api r (State.start now s)).hasErrorsCount = 0 := by
  rw [readyz_pingError api r (fun _ => 0) now s ret h (isSome_true_of_ne_none herr)]
  refine ⟨rfl, response_pingError, ?_⟩
  simp [Run.hasErrorsCount, Run.calls, Run.state, logToPing]

/-- C2 at a concrete input: the ping fails with "connection refused" while
entitlement errors are present as well. -/
theorem C2_ping_failure_short_circuits_witness :
    ((apiOf (pingNow 0 (some (GoError.other "connection refused"))) true).Entitlements.HasErrors
        ()).1 = true ∧
      (readyz (apiOf (pingNow 0 (some (GoError.other "connection refused"))) true)
          reqNoDeadline (State.start 0 ())).isReturned = true ∧
      (readyz (apiOf (pingNow 0 (some (GoError.other "connection refused"))) true)
          reqNoDeadline (State.start 0 ())).response = some (503, "database ping failed") ∧
      (readyz (apiOf (pingNow 0 (some (GoError.other "connection refused"))) true)
          reqNoDeadline (State.start 0 ())).hasErrorsCount = 0 :=
  ⟨rfl, C2_ping_failure_short_circuits
    (apiOf (pingNow 0 (some (GoError.other "connection refused"))) true) reqNoDeadline 0 ()
    { latency := 0, err := some (GoError.other "connection refused"), elapsed := 0, state := () }
    rfl (by simp)⟩

/-- C3: when the storage ping succeeds and `Entitlements.HasErrors()` returns true,
`readyz` returns and the response is status 503 with body exactly
"entitlement error". -/
theorem C3_entitlement_error {σ : Type} (api : API σ) (r : Request)
    (now : Time) (s : σ) (ret : PingReturn σ)
    (h : pingCall api r (State.start now s) = some ret) (herr : ret.err = none)
    (hent : (api.Entitlements.HasErrors ret.state).1 = true) :
    (readyz api r (State.start now s)).isReturned = true ∧
      (readyz api r (State.start now s)).response = some (503, "entitlement error") := by
  rw [readyz_entitlementError api r (fun _ => 0) now s ret h (isSome_false_of_eq_none herr) hent]
  exact ⟨rfl, response_entitlementError⟩

/-- C3 at a concrete input: a ping that succeeds with latency 3 and an
entitlement set that reports errors. -/
theorem C3_entitlement_error_witness :
    (readyz (apiOf (pingNow 3 none) true) reqNoDeadline (State.start 0 ())).isReturned = true ∧
      (readyz (apiOf (pingNow 3 none) true) reqNoDeadline (State.start 0 ())).response =
        some (503, "entitlement error") :=
  C3_entitlement_error (apiOf (pingNow 3 none) true) reqNoDeadline 0 ()
    { latency := 3, err := none, elapsed := 0, state := () } rfl rfl rfl

/-- C4: whenever the storage ping returns, `readyz` produces a response, and it is
one of exactly three (status, body) pairs: (200, "OK"), (503, "database ping
failed"), (503, "entitlement error"); the status is 503 exactly when the body is
one of the two failure reason strings. -/
theorem C4_three_responses {σ : Type} (api : API σ) (r : Request)
    (now : Time) (s : σ) (ret : PingReturn σ)
    (h : pingCall api r (State.start now s) = some ret) :
    ∃ resp, (readyz api r (State.start now s)).response = some resp ∧
      (resp = (200, "OK") ∨ resp = (503, "database ping failed") ∨
        resp = (503, "entitlement error")) ∧
      (resp.1 = 503 ↔ (resp.2 = "database ping failed" ∨ resp.2 = "entitlement error")) := by
  cases herr : ret.err.isSome with
  | true =>
    rw [readyz_pingError api r (fun _ => 0) now s ret h herr]
    exact ⟨(503, "database ping failed"), response_pingError, by decide, by decide⟩
  | false =>
    cases hent : (api.Entitlements.HasErrors ret.state).1 with
    | true =>
      rw [readyz_entitlementError api r (fun _ => 0) now s ret h herr hent]
      exact ⟨(503, "entitlement error"), response_entitlementError, by decide, by decide⟩
    | false =>
      rw [readyz_ok api r (fun _ => 0) now s ret h herr hent]
      exact ⟨(200, "OK"), response_ok, by decide, by decide⟩

/-- C4 at a concrete input: a ping that is canceled. -/
theorem C4_three_responses_witness :
    ∃ resp, (readyz (apiOf (pingNow 0 (some GoError.Canceled)) false) reqNoDeadline
        (State.start 0 ())).response = some resp ∧
      (resp = (200, "OK") ∨ resp = (503, "database ping failed") ∨
        resp = (503, "entitlement error")) ∧
      (resp.1 = 503 ↔ (resp.2 = "database ping failed" ∨ resp.2 = "entitlement error")) :=
  C4_three_responses (apiOf (pingNow 0 (some GoError.Canceled)) false) reqNoDeadline 0 ()
    { latency := 0, err := some GoError.Canceled, elapsed := 0, state := () } rfl


/-- C5: `readyz` calls the storage ping with one context, whose deadline is the
earlier of the incoming context's deadline `d` and the start instant plus 5
seconds (5000000000 ns), and is the start instant plus 5 seconds when the incoming
context has no deadline; the bound is the same for every input.  This is the
context in the log of the run, and it is the context the collaborator receives:
instrumented collaborators whose ping returns have received exactly one `Ping`,
with that context. -/
theorem C5_effective_deadline {σ : Type} (api : API σ) (r : Request) (now : Time) (s : σ) :
    ∃ ctx, ctx.deadline =
        some (match r.Context.deadline with
          | some d => min d (now + 5000000000)
          | none => now + 5000000000) ∧
      (readyz api r (State.start now s)).pingContexts = [ctx] ∧
      (∀ ret, pingCall api r (State.start now s) = some ret →
        pingContextsOf (readyz (instrument api) r (State.start now (s, []))).received =
          [ctx]) := by
  refine ⟨derivedContext r now, derivedContext_deadline r now, ?_, ?_⟩
  · rcases calls_readyz api r now s with ⟨-, h⟩ | ⟨ret, -, -, h⟩ | ⟨ret, -, -, -, h⟩ |
      ⟨ret, -, -, -, h⟩ <;>
    · rw [Run.pingContexts, h]
      simp [pingContextsOf]
  · intro ret h
    rw [received_readyz api r now s ret h]
    cases ret.err.isSome <;> simp [pingContextsOf]

/-- C5 at concrete inputs: a request with deadline 7 started at instant 0, and a
request without deadline started at instant 10; in both the instrumented
collaborators received one `Ping`, with deadline 7 and 5000000010. -/
theorem C5_effective_deadline_witness :
    pingContextsOf (readyz (instrument (apiOf (pingNow 3 none) false)) (reqDeadline 7)
        (State.start 0 ((), []))).received = [{ deadline := some 7 }] ∧
      pingContextsOf (readyz (instrument (apiOf (pingNow 3 none) false)) reqNoDeadline
        (State.start 10 ((), []))).received = [{ deadline := some 5000000010 }] :=
  ⟨(C5_effective_deadline (apiOf (pingNow 3 none) false) (reqDeadline 7) 0 ()).elim
      (fun ctx hctx => by
        have hrec := hctx.2.2 { latency := 3, err := none, elapsed := 0, state := () } rfl
        have hd : ctx.deadline = some 7 := hctx.1
        cases ctx
        simp only at hd
        rw [hrec, hd]),
    (C5_effective_deadline (apiOf (pingNow 3 none) false) reqNoDeadline 10 ()).elim
      (fun ctx hctx => by
        have hrec := hctx.2.2 { latency := 3, err := none, elapsed := 0, state := () } rfl
        have hd : ctx.deadline = some 5000000010 := hctx.1
        cases ctx
        simp only at hd
        rw [hrec, hd])⟩

/-- C6: repeated evaluations with unchanged collaborator state produce identical
verdicts, and an evaluation writes nothing to the collaborator state itself.
(1) Two evaluations (of any two APIs, at any instants, in any states) that observe
the same ping outcome and the same entitlement boolean produce the same response.
(2) The collaborator state after an evaluation is exactly the state its one `Ping`
call and, after a successful ping, its one `HasErrors` call leave behind.
(3) So when `Ping` and `HasErrors` are read-only, the collaborator state after an
evaluation equals the state before it.
(4) And then a second evaluation, started later from the state the first one left
and observing the same ping outcome, sends the same response as the first. -/
theorem C6_idempotent {σ τ : Type} (api : API σ) (api2 : API τ) (r r2 : Request)
    (now now2 : Time) (s : σ) (s2 : τ) :
    (∀ ret ret2, pingCall api r (State.start now s) = some ret →
        pingCall api2 r2 (State.start now2 s2) = some ret2 →
        ret.err.isSome = ret2.err.isSome →
        (api.Entitlements.HasErrors ret.state).1 = (api2.Entitlements.HasErrors ret2.state).1 →
        (readyz api r (State.start now s)).response =
          (readyz api2 r2 (State.start now2 s2)).response) ∧
      (∀ ret, pingCall api r (State.start now s) = some ret →
        (readyz api r (State.start now s)).state.collab =
          if ret.err.isSome then ret.state else (api.Entitlements.HasErrors ret.state).2) ∧
      (ReadOnly api → (readyz api r (State.start now s)).state.collab = s) ∧
      (ReadOnly api → ∀ ret ret3, pingCall api r (State.start now s) = some ret →
        pingCall api r2 (State.start now2 (readyz api r (State.start now s)).state.collab) =
          some ret3 →
        ret.err.isSome = ret3.err.isSome →
        (readyz api r2
            (State.start now2 (readyz api r (State.start now s)).state.collab)).response =
          (readyz api r (State.start now s)).response) := by
  have hkeep : ReadOnly api → (readyz api r (State.start now s)).state.collab = s := by
    rintro ⟨hping, hent⟩
    cases h : pingCall api r (State.start now s) with
    | none =>
      rw [readyz_blocked api r (fun _ => 0) now s h]
      rfl
    | some ret =>
      have hs : ret.state = s := hping _ _ _ _ h
      rw [collab_readyz api r now s ret h]
      cases ret.err.isSome with
      | true => simpa using hs
      | false => simpa [hent] using hs
  refine ⟨fun ret ret2 h h2 herr hent =>
      response_eq_of_same_observations api api2 r r2 now now2 s s2 ret ret2 h h2 herr hent,
    fun ret h => collab_readyz api r now s ret h, hkeep, ?_⟩
  intro hro ret ret3 h h3 herr
  rw [hkeep hro] at h3 ⊢
  have hs : ret.state = s := hro.1 _ _ _ _ h
  have hs3 : ret3.state = s := hro.1 _ _ _ _ h3
  exact response_eq_of_same_observations api api r2 r now2 now s s ret3 ret h3 h herr.symm
    (by rw [hs, hs3])

/-- The API `apiErrorCount` never changes the collaborator state. -/
theorem readOnly_apiErrorCount : ReadOnly apiErrorCount :=
  ⟨fun _ _ _ _ h => by
      simp only [apiErrorCount, Option.some.injEq] at h
      rw [← h],
    fun _ => rfl⟩

/-- C6 at concrete inputs.  (1) A ping of latency 3 at instant 0 and one of latency
40 at instant 7 under a request deadline give the same response.  (2) On
instrumented collaborators the state after the evaluation holds exactly the one
`Ping` and the one `HasErrors` they received.  (3, 4) With two entitlement errors
in effect and read-only collaborators, the state is still 2 after the evaluation
and a second evaluation at instant 9 sends the same response again. -/
theorem C6_idempotent_witness :
    (readyz (apiOf (pingNow 3 none) false) reqNoDeadline (State.start 0 ())).response =
        (readyz (apiOf (pingNow 40 none) false) (reqDeadline 9) (State.start 7 ())).response ∧
      (readyz (instrument (apiOf (pingNow 3 none) false)) reqNoDeadline
          (State.start 0 ((), []))).state.collab =
        ((), [Call.Ping { deadline := some 5000000000 }, Call.HasErrors]) ∧
      ReadOnly apiErrorCount ∧
      (readyz apiErrorCount reqNoDeadline (State.start 0 2)).state.collab = 2 ∧
      (readyz apiErrorCount (reqDeadline 11)
          (State.start 9 (readyz apiErrorCount reqNoDeadline (State.start 0 2)).state.collab)).response =
        (readyz apiErrorCount reqNoDeadline (State.start 0 2)).response :=
  ⟨(C6_idempotent (apiOf (pingNow 3 none) false) (apiOf (pingNow 40 none) false)
      reqNoDeadline (reqDeadline 9) 0 7 () ()).1
      { latency := 3, err := none, elapsed := 0, state := () }
      { latency := 40, err := none, elapsed := 0, state := () } rfl rfl rfl rfl,
    (C6_idempotent (instrument (apiOf (pingNow 3 none) false)) (apiOf (pingNow 40 none) false)
      reqNoDeadline (reqDeadline 9) 0 7 ((), []) ()).2.1
      { latency := 3, err := none, elapsed := 0,
        state := ((), [Call.Ping { deadline := some 5000000000 }]) } rfl,
    readOnly_apiErrorCount,
    (C6_idempotent apiErrorCount apiErrorCount reqNoDeadline (reqDeadline 11) 0 9 2 2).2.2.1
      readOnly_apiErrorCount,
    (C6_idempotent apiErrorCount apiErrorCount reqNoDeadline (reqDeadline 11) 0 9 2 2).2.2.2
      readOnly_apiErrorCount
      { latency := 0, err := none, elapsed := 0, state := 2 }
      { latency := 0, err := none, elapsed := 0, state := 2 } rfl rfl rfl⟩

/-- C7: in every execution of `readyz`, `Database.Ping` is invoked exactly once, and
`Entitlements.HasErrors` is invoked at most once: exactly once when the ping
returned without error, and not at all otherwise.  This holds of the calls in the
log of the run, and of the calls the collaborators receive: instrumented
collaborators whose ping returns have received one `Ping`, and one `HasErrors`
exactly when the ping returned without error. -/
theorem C7_single_attempt {σ : Type} (api : API σ) (r : Request) (now : Time) (s : σ) :
    (readyz api r (State.start now s)).pingCount = 1 ∧
      (readyz api r (State.start now s)).hasErrorsCount ≤ 1 ∧
      ((readyz api r (State.start now s)).hasErrorsCount = 1 ↔
        ∃ ret, pingCall api r (State.start now s) = some ret ∧ ret.err = none) ∧
      (∀ ret, pingCall api r (State.start now s) = some ret →
        (pingContextsOf
          (readyz (instrument api) r (State.start now (s, []))).received).length = 1 ∧
        (readyz (instrument api) r (State.start now (s, []))).received.count Call.HasErrors =
          (if ret.err = none then 1 else 0) ∧
        (readyz (instrument api) r (State.start now (s, []))).received.length =
          (if ret.err = none then 2 else 1)) := by
  refine ⟨?_, ?_, ?_, ?_⟩
  · rcases calls_readyz api r now s with ⟨-, h⟩ | ⟨ret, -, -, h⟩ | ⟨ret, -, -, -, h⟩ |
      ⟨ret, -, -, -, h⟩ <;>
    · rw [Run.pingCount, Run.pingContexts, h]
      simp [pingContextsOf]
  · rcases calls_readyz api r now s with ⟨-, h⟩ | ⟨ret, -, -, h⟩ | ⟨ret, -, -, -, h⟩ |
      ⟨ret, -, -, -, h⟩ <;>
    · rw [Run.hasErrorsCount, h]
      simp
  · rcases calls_readyz api r now s with ⟨hp, h⟩ | ⟨ret, hp, he, h⟩ | ⟨ret, hp, he, -, h⟩ |
      ⟨ret, hp, he, -, h⟩
    · rw [Run.hasErrorsCount, h, hp]; simp
    · rw [Run.hasErrorsCount, h, hp]; simp [he]
    · rw [Run.hasErrorsCount, h, hp]; simp [he]
    · rw [Run.hasErrorsCount, h, hp]; simp [he]
  · intro ret h
    rw [received_readyz api r now s ret h]
    cases he : ret.err with
    | none => simp [pingContextsOf]
    | some e => simp [pingContextsOf]

/-- C7 at concrete inputs: instrumented collaborators receive `Ping` alone when the
ping fails, and `Ping` then `HasErrors` when it succeeds. -/
theorem C7_single_attempt_witness :
    ((pingContextsOf (readyz (instrument (apiOf (pingNow 0 (some GoError.Canceled)) true))
          reqNoDeadline (State.start 0 ((), []))).received).length = 1 ∧
        (readyz (instrument (apiOf (pingNow 0 (some GoError.Canceled)) true))
          reqNoDeadline (State.start 0 ((), []))).received.count Call.HasErrors = 0 ∧
        (readyz (instrument (apiOf (pingNow 0 (some GoError.Canceled)) true))
          reqNoDeadline (State.start 0 ((), []))).received.length = 1) ∧
      ((pingContextsOf (readyz (instrument (apiOf (pingNow 3 none) true))
          reqNoDeadline (State.start 0 ((), []))).received).length = 1 ∧
        (readyz (instrument (apiOf (pingNow 3 none) true))
          reqNoDeadline (State.start 0 ((), []))).received.count Call.HasErrors = 1 ∧
        (readyz (instrument (apiOf (pingNow 3 none) true))
          reqNoDeadline (State.start 0 ((), []))).received.length = 2) :=
  ⟨(C7_single_attempt (apiOf (pingNow 0 (some GoError.Canceled)) true) reqNoDeadline 0 ()).2.2.2
      { latency := 0, err := some GoError.Canceled, elapsed := 0, state := () } rfl,
    (C7_single_attempt (apiOf (pingNow 3 none) true) reqNoDeadline 0 ()).2.2.2
      { latency := 3, err := none, elapsed := 0, state := () } rfl⟩

/-- C9: `readyz` does not distinguish kinds of ping failure and does not use the
value a successful ping returns.  For two evaluations whose pings return
`ret` and `ret2`: if both returned a non-nil error (whichever errors they are) the
two responses are equal, and equal to 503 "database ping failed"; if both
succeeded (with whatever latencies) and `HasErrors` returns the same boolean, the
two responses are equal. -/
theorem C9_ping_detail_not_observable {σ τ : Type} (api : API σ) (api2 : API τ)
    (r r2 : Request) (now now2 : Time) (s : σ) (s2 : τ)
    (ret : PingReturn σ) (ret2 : PingReturn τ)
    (h : pingCall api r (State.start now s) = some ret)
    (h2 : pingCall api2 r2 (State.start now2 s2) = some ret2) :
    (ret.err ≠ none → ret2.err ≠ none →
        (readyz api r (State.start now s)).response =
          (readyz api2 r2 (State.start now2 s2)).response ∧
        (readyz api r (State.start now s)).response = some (503, "database ping failed")) ∧
      (ret.err = none → ret2.err = none →
        (api.Entitlements.HasErrors ret.state).1 = (api2.Entitlements.HasErrors ret2.state).1 →
        (readyz api r (State.start now s)).response =
          (readyz api2 r2 (State.start now2 s2)).response) := by
  constructor
  · intro he he2
    rw [readyz_pingError api r (fun _ => 0) now s ret h (isSome_true_of_ne_none he),
      readyz_pingError api2 r2 (fun _ => 0) now2 s2 ret2 h2 (isSome_true_of_ne_none he2)]
    exact ⟨rfl, response_pingError⟩
  · intro he he2 hent
    cases hb : (api.Entitlements.HasErrors ret.state).1 with
    | true =>
      rw [readyz_entitlementError api r (fun _ => 0) now s ret h (isSome_false_of_eq_none he) hb,
        readyz_entitlementError api2 r2 (fun _ => 0) now2 s2 ret2 h2 (isSome_false_of_eq_none he2)
          (hent ▸ hb)]
      rfl
    | false =>
      rw [readyz_ok api r (fun _ => 0) now s ret h (isSome_false_of_eq_none he) hb,
        readyz_ok api2 r2 (fun _ => 0) now2 s2 ret2 h2 (isSome_false_of_eq_none he2) (hent ▸ hb)]
      rfl

/-- C9 at concrete inputs: a deadline-exceeded ping and a connection-refused ping
give the same response; pings succeeding with latencies 3 and 40 give the same
response under the same entitlement answer. -/
theorem C9_ping_detail_not_observable_witness :
    ((readyz (apiOf (pingNow 0 (some GoError.DeadlineExceeded)) false) reqNoDeadline
          (State.start 0 ())).response =
        (readyz (apiOf (pingNow 0 (some (GoError.other "connection refused"))) false)
          reqNoDeadline (State.start 0 ())).response ∧
      (readyz (apiOf (pingNow 0 (some GoError.DeadlineExceeded)) false) reqNoDeadline
          (State.start 0 ())).response = some (503, "database ping failed")) ∧
      (readyz (apiOf (pingNow 3 none) true) reqNoDeadline (State.start 0 ())).response =
        (readyz (apiOf (pingNow 40 none) true) reqNoDeadline (State.start 0 ())).response :=
  ⟨(C9_ping_detail_not_observable
      (apiOf (pingNow 0 (some GoError.DeadlineExceeded)) false)
      (apiOf (pingNow 0 (some (GoError.other "connection refused"))) false)
      reqNoDeadline reqNoDeadline 0 0 () ()
      { latency := 0, err := some GoError.DeadlineExceeded, elapsed := 0, state := () }
      { latency := 0, err := some (GoError.other "connection refused"), elapsed := 0,
        state := () }
      rfl rfl).1 (by simp) (by simp),
    (C9_ping_detail_not_observable (apiOf (pingNow 3 none) true) (apiOf (pingNow 40 none) true)
      reqNoDeadline reqNoDeadline 0 0 () ()
      { latency := 3, err := none, elapsed := 0, state := () }
      { latency := 40, err := none, elapsed := 0, state := () }
      rfl rfl).2 rfl rfl rfl⟩

/-- C10: on every path on which `readyz` returns, the state of the response writer
is the result of making the logged writer calls, in order, on the fresh writer, and
these calls are: on a ping failure, `WriteHeader(503)` then one `Write` of
"database ping failed", and the response is 503 with that body; on an entitlement
error, `WriteHeader(503)` then one `Write` of "entitlement error", and the response
is 503 with that body; on success, a single `Write` of "OK" with no `WriteHeader`
call, the status 200 being the writer's default.  Nothing follows the `Write`. -/
theorem C10_writer_calls {σ : Type} (api : API σ) (r : Request) (now : Time) (s : σ)
    (ret : PingReturn σ) (h : pingCall api r (State.start now s) = some ret) :
    (readyz api r (State.start now s)).state.w =
        replay (readyz api r (State.start now s)).writerCalls NewRecorder ∧
      ((ret.err ≠ none ∧
          (readyz api r (State.start now s)).writerCalls =
            [Call.WriteHeader 503, Call.Write "database ping failed"] ∧
          (readyz api r (State.start now s)).response =
            some (503, "database ping failed")) ∨
        (ret.err = none ∧ (api.Entitlements.HasErrors ret.state).1 = true ∧
          (readyz api r (State.start now s)).writerCalls =
            [Call.WriteHeader 503, Call.Write "entitlement error"] ∧
          (readyz api r (State.start now s)).response = some (503, "entitlement error")) ∨
        (ret.err = none ∧ (api.Entitlements.HasErrors ret.state).1 = false ∧
          (readyz api r (State.start now s)).writerCalls = [Call.Write "OK"] ∧
          (readyz api r (State.start now s)).response = some (200, "OK"))) := by
  cases he : ret.err.isSome with
  | true =>
    have hne : ret.err ≠ none := by
      intro hn; rw [hn] at he; simp at he
    have hcalls : (readyz api r (State.start now s)).writerCalls =
        [Call.WriteHeader 503, Call.Write "database ping failed"] := by
      rw [readyz_pingError api r (fun _ => 0) now s ret h he]
      simp [Run.writerCalls, Run.calls, Run.state, logToPing, StatusServiceUnavailable]
    refine ⟨?_, Or.inl ⟨hne, hcalls, ?_⟩⟩
    · rw [hcalls, readyz_pingError api r (fun _ => 0) now s ret h he]
      rfl
    · rw [readyz_pingError api r (fun _ => 0) now s ret h he]
      exact response_pingError
  | false =>
    have hnone : ret.err = none := eq_none_of_isSome_false he
    cases hb : (api.Entitlements.HasErrors ret.state).1 with
    | true =>
      have hcalls : (readyz api r (State.start now s)).writerCalls =
          [Call.WriteHeader 503, Call.Write "entitlement error"] := by
        rw [readyz_entitlementError api r (fun _ => 0) now s ret h he hb]
        simp [Run.writerCalls, Run.calls, Run.state, logToPing, StatusServiceUnavailable]
      refine ⟨?_, Or.inr (Or.inl ⟨hnone, rfl, hcalls, ?_⟩)⟩
      · rw [hcalls, readyz_entitlementError api r (fun _ => 0) now s ret h he hb]
        rfl
      · rw [readyz_entitlementError api r (fun _ => 0) now s ret h he hb]
        exact response_entitlementError
    | false =>
      have hcalls : (readyz api r (State.start now s)).writerCalls = [Call.Write "OK"] := by
        rw [readyz_ok api r (fun _ => 0) now s ret h he hb]
        simp [Run.writerCalls, Run.calls, Run.state, logToPing]
      refine ⟨?_, Or.inr (Or.inr ⟨hnone, rfl, hcalls, ?_⟩)⟩
      · rw [hcalls, readyz_ok api r (fun _ => 0) now s ret h he hb]
        rfl
      · rw [readyz_ok api r (fun _ => 0) now s ret h he hb]
        exact response_ok

/-- C10 at concrete inputs, one for each path: a canceled ping, a successful ping
with entitlement errors, and a successful ping without. -/
theorem C10_writer_calls_witness :
    ((readyz (apiOf (pingNow 0 (some GoError.Canceled)) false) reqNoDeadline
          (State.start 0 ())).writerCalls =
        [Call.WriteHeader 503, Call.Write "database ping failed"] ∧
      (readyz (apiOf (pingNow 0 (some GoError.Canceled)) false) reqNoDeadline
          (State.start 0 ())).response = some (503, "database ping failed")) ∧
    ((readyz (apiOf (pingNow 3 none) true) reqNoDeadline (State.start 0 ())).writerCalls =
        [Call.WriteHeader 503, Call.Write "entitlement error"] ∧
      (readyz (apiOf (pingNow 3 none) true) reqNoDeadline (State.start 0 ())).response =
        some (503, "entitlement error")) ∧
    ((readyz (apiOf (pingNow 3 none) false) reqNoDeadline (State.start 0 ())).writerCalls =
        [Call.Write "OK"] ∧
      (readyz (apiOf (pingNow 3 none) false) reqNoDeadline (State.start 0 ())).response =
        some (200, "OK")) ∧
    (readyz (apiOf (pingNow 0 (some GoError.Canceled)) false) reqNoDeadline
        (State.start 0 ())).state.w =
      replay [Call.WriteHeader 503, Call.Write "database ping failed"] NewRecorder :=
  ⟨(C10_writer_calls (apiOf (pingNow 0 (some GoError.Canceled)) false) reqNoDeadline 0 ()
      { latency := 0, err := some GoError.Canceled, elapsed := 0, state := () } rfl).2.elim
      (fun hfail => hfail.2)
      (fun hrest => hrest.elim
        (fun hent => absurd hent.1 (by decide))
        (fun hok => absurd hok.1 (by decide))),
    (C10_writer_calls (apiOf (pingNow 3 none) true) reqNoDeadline 0 ()
      { latency := 3, err := none, elapsed := 0, state := () } rfl).2.elim
      (fun hfail => absurd rfl hfail.1)
      (fun hrest => hrest.elim
        (fun hent => hent.2.2)
        (fun hok => absurd hok.2.1 (by decide))),
    (C10_writer_calls (apiOf (pingNow 3 none) false) reqNoDeadline 0 ()
      { latency := 3, err := none, elapsed := 0, state := () } rfl).2.elim
      (fun hfail => absurd rfl hfail.1)
      (fun hrest => hrest.elim
        (fun hent => absurd hent.2.1 (by decide))
        (fun hok => hok.2.2)),
    (C10_writer_calls (apiOf (pingNow 0 (some GoError.Canceled)) false) reqNoDeadline 0 ()
      { latency := 0, err := some GoError.Canceled, elapsed := 0, state := () } rfl).1⟩

end Coderd
